import Mathlib

/-!
Verification of `mirage/yaml/write_observationlist.py` (function `write_yaml`).

The Python function converts an APT proposal (already parsed by external
collaborators into (a) an ordered list of observation nodes carrying an
instrument code and a label, and (b) a flattened per-exposure table keyed by
field name) into the text lines of an observation-list file.

Shallow embedding notes:
* The XML reading and file writing are external collaborators; the embedding
  starts from the reader's two outputs (`List ObsNode` and `XmlTable`) and
  ends with the list of text lines that would be written.  The Python code
  opens the output file only after the whole `write` list has been built, so
  any exception raised earlier leaves the output file untouched; accordingly
  the embedding returns `Except Err (List String)`, where `Except.error`
  means the run aborted with no output.
* `catalog_files` is modelled after the `str -> [str]` normalisation at the
  top of the function, i.e. as a `List String`.
* Python exceptions are modelled by the `Err` type: `NotImplementedError`,
  `IndexError` (indexing `used_instruments[0]` on an empty array, or list
  indexing out of range), `TypeError` (`len(None)`), `NameError` (reading
  `all_param_lengths` when neither setup branch bound it), `KeyError`
  (dictionary lookup miss) and `ValueError` (the cardinality check; the
  constructor carries `all_param_lengths`, which the code prints as the
  diagnostic just before raising).
* `np.unique` returns the sorted distinct values; the code only observes its
  length and, when that length is exactly one, its single element, so
  `List.dedup` (distinct values in first-occurrence order) is observationally
  identical here.
* Iteration over the Python `set(observation_ids)` has an unspecified order;
  `write_yamlWithOrder` takes that order as an explicit parameter and
  `write_yaml` instantiates it with the canonical enumeration
  `tbl.ObservationID.dedup`.  Order-independence is proved separately.
* Boolean-mask selection `np.array(vals)[current_obs_indices]` assumes the
  reader's columns are equal-length (reader contract, spec section 6); it is
  embedded as selection over `ids.zip vals`.
-/

namespace Mirage

/-- One `<Observation>` node of the proposal, as exposed by the XML tree:
its `<Instrument>` text and its `<Label>` text. -/
structure ObsNode where
  instrument : String
  label : String
deriving DecidableEq

/-- The dictionary returned by `read_apt_xml.ReadAPTXML.read_xml`, restricted
to the fields `write_yaml` reads.  Each field is one equal-length column of
the flattened per-exposure table. -/
structure XmlTable where
  Instrument : List String
  ShortFilter : List String
  LongFilter : List String
  PupilWheel : List String
  TileNumber : List Nat
  ObservationID : List Nat
deriving DecidableEq

/-- Python exceptions that `write_yaml` can raise, abort the run and leave
the output file unwritten. -/
inductive Err where
  | notImplemented
  | indexError
  | typeError
  | nameError
  | keyError (k : Nat)
  | cardinality (lengths : List Nat)
deriving DecidableEq

/-- `' (' in label`: the label contains a space immediately followed by an
opening parenthesis. -/
def hasSpaceParen : List Char → Bool
  | c :: d :: rest => (c == ' ' && d == '(') || hasSpaceParen (d :: rest)
  | _ => false

/-- `re.split(r' \(|\)', label)[0]`: the characters before the first match of
either `' ('` or `')'` (the whole string when neither occurs). -/
def parenCut : List Char → List Char
  | [] => []
  | [c] => if c = ')' then [] else [c]
  | c :: d :: rest =>
    if c = ')' then []
    else if c = ' ' ∧ d = '(' then []
    else c :: parenCut (d :: rest)

/-- Name derivation for one kept observation node:
`if (' (' in label) and (')' in label): label = re.split(r' \(|\)', label)[0]`. -/
def deriveName (label : String) : String :=
  if hasSpaceParen label.toList && label.toList.contains ')' then
    String.mk (parenCut label.toList)
  else label

/-- The instrument codes the selector keeps: `['NIRCAM', 'WFSC', 'NIRISS', 'FGS']`. -/
def supportedInstruments : List String := ["NIRCAM", "WFSC", "NIRISS", "FGS"]

/-- The selection loop over `enumerate(obs_results)`: kept nodes paired with
their 0-based position in the original unfiltered list. -/
def selectObs (obs_results : List ObsNode) : List (Nat × ObsNode) :=
  obs_results.enum.filter (fun p => supportedInstruments.contains p.2.instrument)

/-- `i_observations`: original positions of the kept nodes. -/
def i_observationsOf (sel : List (Nat × ObsNode)) : List Nat :=
  sel.map Prod.fst

/-- `obs_names`: derived names of the kept nodes, aligned with `i_observations`. -/
def obs_namesOf (sel : List (Nat × ObsNode)) : List String :=
  sel.map (fun p => deriveName p.2.label)

/-- Boolean-mask selection `np.array(vals)[[i == target for i in ids]]`:
the values whose row's observation id equals `target`, in row order.
Under the reader contract the two columns are equal-length. -/
def maskSelect (ids : List Nat) (vals : List String) (target : Nat) : List String :=
  ((ids.zip vals).filter (fun p => p.1 == target)).map Prod.snd

/-- The aggregation loop `for i_obs_all in set(observation_ids): d[i_obs_all] = ...`
building the filter dictionary; `order` is the iteration order of the set. -/
def buildGroups (order : List Nat) (ids : List Nat) (vals : List String) :
    List (Nat × List String) :=
  order.map (fun id => (id, maskSelect ids vals id))

/-- `len(set(np.array(vals)[current_obs_indices])) > 1`: the diagnostic
condition `Note: Multiple filters in observation ...` for one id and one
filter column. -/
def multiFilterNotice (ids : List Nat) (vals : List String) (target : Nat) : Bool :=
  decide (1 < ((maskSelect ids vals target).dedup).length)

/-- The notice actually printed in the NIRCAM/WFSC branch: it inspects only
the `ShortFilter` column. -/
def dichroicNotice (tbl : XmlTable) (target : Nat) : Bool :=
  multiFilterNotice tbl.ObservationID tbl.ShortFilter target

/-- The notice actually printed in the NIRISS branch: it inspects the
`PupilWheel` column. -/
def singleNotice (tbl : XmlTable) (target : Nat) : Bool :=
  multiFilterNotice tbl.ObservationID tbl.PupilWheel target

/-- Fallible access: `some` passes through, `none` raises `e`. -/
def getOrErr {α : Type} (e : Err) : Option α → Except Err α
  | some a => .ok a
  | none => .error e

/-- Left-to-right effectful map over `Except`, mirroring a Python `for` loop
that can raise at each iteration. -/
def exMapM {α β : Type} (f : α → Except Err β) : List α → Except Err (List β)
  | [] => .ok []
  | a :: as => do
    let b ← f a
    let bs ← exMapM f as
    .ok (b :: bs)

/-- Python `list * n`. -/
def listRepeat {α : Type} (l : List α) (n : Nat) : List α :=
  (List.replicate n l).flatten

/-! Default values, fixed constants in the source.  The NIRCAM/WFSC and the
NIRISS setup branches bind identical values for all fields except the
background rates, so they are shared here. -/

def date : String := "2019-07-04"
def PAV3 : String := "0."
def GalaxyCatalog : String := "None"
def ExtendedCatalog : String := "None"
def ExtendedScale : String := "1.0"
def ExtendedCenter : String := "1024,1024"
def MovingTargetList : String := "None"
def MovingTargetSersic : String := "None"
def MovingTargetExtended : String := "None"
def MovingTargetConvolveExtended : String := "True"
def MovingTargetToTrack : String := "None"
def BackgroundRate_sw : String := "0.5"
def BackgroundRate_lw : String := "1.2"
def BackgroundRate : String := "0.5"

/-- The three header-comment lines opening the output file. -/
def introLines : List String :=
  [ "# Observation list created by write_observationlist.py  in\n",
    "# mirage/yaml. Note: all values except filters and\n",
    "# observation names are default.\n\n" ]

/-- The four lines opening one observation block. -/
def obsHeader (obs_number : Nat) (name : String) : List String :=
  [ "Observation" ++ toString obs_number ++ ":\n",
    "  Name: '" ++ name ++ "'\n",
    "  Date: " ++ date ++ "\n",
    "  PAV3: " ++ PAV3 ++ "\n" ]

/-- One `FilterConfig` block of the NIRCAM/WFSC rendering loop: the SW
sub-block followed by the mirrored LW sub-block. -/
def filterConfigBlock (i_filt : Nat) (sw_filt lw_filt csw clw : String) : List String :=
  [ "  FilterConfig" ++ toString (i_filt + 1) ++ ":\n",
    "    SW:\n",
    "      Filter: " ++ sw_filt ++ "\n",
    "      PointSourceCatalog: " ++ csw ++ "\n",
    "      GalaxyCatalog: " ++ GalaxyCatalog ++ "\n",
    "      ExtendedCatalog: " ++ ExtendedCatalog ++ "\n",
    "      ExtendedScale: " ++ ExtendedScale ++ "\n",
    "      ExtendedCenter: " ++ ExtendedCenter ++ "\n",
    "      MovingTargetList: " ++ MovingTargetList ++ "\n",
    "      MovingTargetSersic: " ++ MovingTargetSersic ++ "\n",
    "      MovingTargetExtended: " ++ MovingTargetExtended ++ "\n",
    "      MovingTargetConvolveExtended: " ++ MovingTargetConvolveExtended ++ "\n",
    "      MovingTargetToTrack: " ++ MovingTargetToTrack ++ "\n",
    "      BackgroundRate: " ++ BackgroundRate_sw ++ "\n",
    "    LW:\n",
    "      Filter: " ++ lw_filt ++ "\n",
    "      PointSourceCatalog: " ++ clw ++ "\n",
    "      GalaxyCatalog: " ++ GalaxyCatalog ++ "\n",
    "      ExtendedCatalog: " ++ ExtendedCatalog ++ "\n",
    "      ExtendedScale: " ++ ExtendedScale ++ "\n",
    "      ExtendedCenter: " ++ ExtendedCenter ++ "\n",
    "      MovingTargetList: " ++ MovingTargetList ++ "\n",
    "      MovingTargetSersic: " ++ MovingTargetSersic ++ "\n",
    "      MovingTargetExtended: " ++ MovingTargetExtended ++ "\n",
    "      MovingTargetConvolveExtended: " ++ MovingTargetConvolveExtended ++ "\n",
    "      MovingTargetToTrack: " ++ MovingTargetToTrack ++ "\n",
    "      BackgroundRate: " ++ BackgroundRate_lw ++ "\n\n" ]

/-- One flat filter block of the NIRISS/FGS rendering loop. -/
def singleFilterBlock (filt cat : String) : List String :=
  [ "  Filter: " ++ filt ++ "\n",
    "  PointSourceCatalog: " ++ cat ++ "\n",
    "  GalaxyCatalog: " ++ GalaxyCatalog ++ "\n",
    "  ExtendedCatalog: " ++ ExtendedCatalog ++ "\n",
    "  ExtendedScale: " ++ ExtendedScale ++ "\n",
    "  ExtendedCenter: " ++ ExtendedCenter ++ "\n",
    "  MovingTargetList: " ++ MovingTargetList ++ "\n",
    "  MovingTargetSersic: " ++ MovingTargetSersic ++ "\n",
    "  MovingTargetExtended: " ++ MovingTargetExtended ++ "\n",
    "  MovingTargetConvolveExtended: " ++ MovingTargetConvolveExtended ++ "\n",
    "  MovingTargetToTrack: " ++ MovingTargetToTrack ++ "\n",
    "  BackgroundRate: " ++ BackgroundRate ++ "\n" ]

/-- One iteration of the NIRCAM/WFSC rendering loop: the observation header
followed by one `FilterConfig` block per `(sw, lw)` pair of
`zip(sw_filters[obs_number], lw_filters[obs_number])`.  The dictionary
lookups use the key `obs_number = i_observations[i_obs] + 1`; the catalog
accesses `ps_cat_sw[i_obs]` / `ps_cat_lw[i_obs]` happen inside the loop body. -/
def renderObsNIRCAM (sw_filters lw_filters : List (Nat × List String))
    (ps_cat_sw ps_cat_lw : List String)
    (i_observations : List Nat) (obs_names : List String)
    (i_obs : Nat) : Except Err (List String) := do
  let io ← getOrErr .indexError i_observations[i_obs]?
  let obs_number := io + 1
  let nm ← getOrErr .indexError obs_names[i_obs]?
  let swf ← getOrErr (.keyError obs_number) (sw_filters.lookup obs_number)
  let lwf ← getOrErr (.keyError obs_number) (lw_filters.lookup obs_number)
  let blocks ← exMapM (fun q => do
      let csw ← getOrErr .indexError ps_cat_sw[i_obs]?
      let clw ← getOrErr .indexError ps_cat_lw[i_obs]?
      .ok (filterConfigBlock q.1 q.2.1 q.2.2 csw clw))
    (swf.zip lwf).enum
  .ok (obsHeader obs_number nm ++ blocks.flatten)

/-- One iteration of the NIRISS/FGS rendering loop: the observation header
followed by one flat block per filter of `filters[i_obs]`.  Note the
dictionary lookup key is the loop position `i_obs`, not `obs_number`; the
catalog access `catalog_files[i_obs]` happens inside the loop body. -/
def renderObsSingle (filters : List (Nat × List String))
    (catalog_files : List String)
    (i_observations : List Nat) (obs_names : List String)
    (i_obs : Nat) : Except Err (List String) := do
  let io ← getOrErr .indexError i_observations[i_obs]?
  let obs_number := io + 1
  let nm ← getOrErr .indexError obs_names[i_obs]?
  let filts ← getOrErr (.keyError i_obs) (filters.lookup i_obs)
  let blocks ← exMapM (fun filt => do
      let cat ← getOrErr .indexError catalog_files[i_obs]?
      .ok (singleFilterBlock filt cat))
    filts
  .ok (obsHeader obs_number nm ++ blocks.flatten)

/-- `all_param_lengths` of the NIRCAM/WFSC setup branch. -/
def dichroicParamLengths (psw plw : List String)
    (sw_filters lw_filters : List (Nat × List String))
    (sel : List (Nat × ObsNode)) : List Nat :=
  [psw.length, plw.length, sw_filters.length, lw_filters.length,
   sel.length, (i_observationsOf sel).length, (obs_namesOf sel).length]

/-- `all_param_lengths` of the NIRISS setup branch. -/
def singleParamLengths (catalog_files : List String)
    (filters : List (Nat × List String))
    (sel : List (Nat × ObsNode)) : List Nat :=
  [catalog_files.length, filters.length,
   sel.length, (i_observationsOf sel).length, (obs_namesOf sel).length]

/-- The whole of `write_yaml`, from the reader's outputs to the list of text
lines written to the output file, parameterised by the iteration order of
`set(observation_ids)`.  An `Except.error` result models an exception raised
before the output file is opened: nothing is written. -/
def write_yamlWithOrder (obs_results : List ObsNode) (tbl : XmlTable)
    (catalog_files : List String) (ps_cat_sw ps_cat_lw : Option (List String))
    (order : List Nat) : Except Err (List String) :=
  let sel := selectObs obs_results
  let num_obs := sel.length
  let used_instruments := tbl.Instrument.dedup
  if 1 < used_instruments.length then .error .notImplemented
  else
    match used_instruments with
    | [] => .error .indexError
    | u :: _ =>
      if u = "NIRCAM" ∨ u = "WFSC" then
        let sw_filters := buildGroups order tbl.ObservationID tbl.ShortFilter
        let lw_filters := buildGroups order tbl.ObservationID tbl.LongFilter
        match ps_cat_sw with
        | none => .error .typeError
        | some psw =>
          match ps_cat_lw with
          | none => .error .typeError
          | some plw =>
            let lens := dichroicParamLengths psw plw sw_filters lw_filters sel
            if 1 < lens.dedup.length then .error (.cardinality lens)
            else do
              let blocks ← exMapM
                (renderObsNIRCAM sw_filters lw_filters psw plw
                  (i_observationsOf sel) (obs_namesOf sel))
                (List.range num_obs)
              .ok (introLines ++ blocks.flatten)
      else if u = "NIRISS" then
        let filters := buildGroups order tbl.ObservationID tbl.PupilWheel
        let cats := if catalog_files.length = 1
          then listRepeat catalog_files num_obs else catalog_files
        let lens := singleParamLengths cats filters sel
        if 1 < lens.dedup.length then .error (.cardinality lens)
        else do
          let blocks ← exMapM
            (renderObsSingle filters cats
              (i_observationsOf sel) (obs_namesOf sel))
            (List.range num_obs)
          .ok (introLines ++ blocks.flatten)
      else .error .nameError

/-- `write_yaml` with the canonical set-iteration order: the distinct
observation ids in first-occurrence order. -/
def write_yaml (obs_results : List ObsNode) (tbl : XmlTable)
    (catalog_files : List String) (ps_cat_sw ps_cat_lw : Option (List String)) :
    Except Err (List String) :=
  write_yamlWithOrder obs_results tbl catalog_files ps_cat_sw ps_cat_lw
    tbl.ObservationID.dedup

/-! ### Helper lemmas -/

theorem bind_ok {α β : Type} (a : α) (f : α → Except Err β) :
    (Except.ok a >>= f) = f a := rfl

theorem bind_error {α β : Type} (e : Err) (f : α → Except Err β) :
    ((Except.error e : Except Err α) >>= f) = .error e := rfl

theorem bind_ok_inv {α β : Type} {x : Except Err α} {f : α → Except Err β} {b : β}
    (h : (x >>= f) = .ok b) : ∃ a, x = .ok a ∧ f a = .ok b := by
  cases x with
  | error e => exact absurd h (by simp [Bind.bind, Except.bind])
  | ok a => exact ⟨a, rfl, h⟩

theorem getOrErr_ok_inv {α : Type} {e : Err} {o : Option α} {a : α}
    (h : getOrErr e o = .ok a) : o = some a := by
  cases o with
  | none => exact absurd h (by simp [getOrErr])
  | some b => simpa [getOrErr, Except.ok.injEq] using h

theorem exMapM_nil {α β : Type} (f : α → Except Err β) : exMapM f [] = .ok [] := rfl

theorem exMapM_cons {α β : Type} (f : α → Except Err β) (a : α) (as : List α) :
    exMapM f (a :: as) =
      (f a >>= fun b => exMapM f as >>= fun bs => .ok (b :: bs)) := rfl

theorem exMapM_congr {α β : Type} {f g : α → Except Err β} {l : List α}
    (h : ∀ a ∈ l, f a = g a) : exMapM f l = exMapM g l := by
  induction l with
  | nil => rfl
  | cons a as ih =>
    rw [exMapM_cons, exMapM_cons, h a (by simp), ih (fun x hx => h x (by simp [hx]))]

theorem exMapM_pure {α β : Type} (g : α → β) (l : List α) :
    exMapM (fun a => Except.ok (g a)) l = .ok (l.map g) := by
  induction l with
  | nil => rfl
  | cons a as ih => rw [exMapM_cons, bind_ok, ih, bind_ok]; rfl

theorem exMapM_ok_inv {α β : Type} {f : α → Except Err β} {l : List α} {ys : List β}
    (h : exMapM f l = .ok ys) :
    ys.length = l.length ∧
    ∀ i, i < l.length → ∃ a b, l[i]? = some a ∧ ys[i]? = some b ∧ f a = .ok b := by
  induction l generalizing ys with
  | nil =>
    rw [exMapM_nil, Except.ok.injEq] at h
    subst h
    exact ⟨rfl, by intro i hi; exact absurd hi (by simp)⟩
  | cons a as ih =>
    rw [exMapM_cons] at h
    obtain ⟨b, hb, h⟩ := bind_ok_inv h
    obtain ⟨bs, hbs, h⟩ := bind_ok_inv h
    rw [Except.ok.injEq] at h
    subst h
    obtain ⟨hlen, hget⟩ := ih hbs
    refine ⟨by simp [hlen], ?_⟩
    intro i hi
    cases i with
    | zero => exact ⟨a, b, by simp, by simp, hb⟩
    | succ j =>
      have hj : j < as.length := by simpa using hi
      obtain ⟨x, y, hx, hy, hf⟩ := hget j hj
      exact ⟨x, y, by simpa using hx, by simpa using hy, hf⟩

theorem exMapM_ok_of_forall {α β : Type} {f : α → Except Err β} {l : List α}
    (h : ∀ a ∈ l, ∃ b, f a = .ok b) : ∃ ys, exMapM f l = .ok ys := by
  induction l with
  | nil => exact ⟨[], rfl⟩
  | cons a as ih =>
    obtain ⟨b, hb⟩ := h a (by simp)
    obtain ⟨bs, hbs⟩ := ih (fun x hx => h x (by simp [hx]))
    exact ⟨b :: bs, by rw [exMapM_cons, hb, bind_ok, hbs, bind_ok]⟩

/-- The inner rendering loop of the single-channel family, inverted: an `ok`
result means either no filter at all, or the catalog access succeeded and one
block per filter was produced. -/
theorem exMapM_catalog_ok_inv {β : Type} {o : Option String}
    {g : String → String → β} {l : List String} {bs : List β} {e : Err}
    (h : exMapM (fun t => getOrErr e o >>= fun c => Except.ok (g t c)) l = .ok bs) :
    (l = [] ∧ bs = []) ∨ ∃ c, o = some c ∧ bs = l.map (fun t => g t c) := by
  cases o with
  | some c =>
    refine Or.inr ⟨c, rfl, ?_⟩
    rw [exMapM_congr (g := fun t => Except.ok (g t c)) (by intro a _; rfl),
      exMapM_pure] at h
    simpa using h.symm
  | none =>
    cases l with
    | nil => exact Or.inl ⟨rfl, by simpa [exMapM_nil] using h.symm⟩
    | cons a as =>
      rw [exMapM_cons] at h
      exact absurd h (by simp [getOrErr, Bind.bind, Except.bind])

theorem lookup_buildGroups (ids : List Nat) (vals : List String) (k : Nat)
    (order : List Nat) :
    (buildGroups order ids vals).lookup k =
      if k ∈ order then some (maskSelect ids vals k) else none := by
  induction order with
  | nil => rfl
  | cons a os ih =>
    simp only [buildGroups, List.map_cons] at *
    by_cases hk : k = a
    · subst hk; simp [List.lookup_cons]
    · have hba : (k == a) = false := by simp [hk]
      simp [List.lookup_cons, hba, ih, hk]

theorem all_eq_of_dedup_length_le_one {α : Type} [DecidableEq α] {l : List α}
    (h : l.dedup.length ≤ 1) {x y : α} (hx : x ∈ l) (hy : y ∈ l) : x = y := by
  have hx' : x ∈ l.dedup := List.mem_dedup.mpr hx
  have hy' : y ∈ l.dedup := List.mem_dedup.mpr hy
  rcases e : l.dedup with _ | ⟨a, t⟩
  · rw [e] at hx'; exact absurd hx' (by simp)
  · rw [e] at hx' hy' h
    have ht : t = [] := by
      have := List.length_cons a t ▸ h
      exact List.eq_nil_of_length_eq_zero (by omega)
    subst ht
    rw [List.mem_singleton] at hx' hy'
    rw [hx', hy']

theorem pairwise_fst_lt_enumFrom {α : Type} (l : List α) :
    ∀ n : Nat, (l.enumFrom n).Pairwise (fun p q => p.1 < q.1) := by
  induction l with
  | nil => intro n; exact List.Pairwise.nil
  | cons a as ih =>
    intro n
    refine List.Pairwise.cons ?_ (ih (n + 1))
    rintro ⟨i, x⟩ hq
    have := (List.mk_mem_enumFrom_iff_le_and_getElem?_sub.mp hq).1
    simpa using this

/-- The original positions recorded by the selector are strictly increasing. -/
theorem pairwise_lt_i_observations (obs_results : List ObsNode) :
    (i_observationsOf (selectObs obs_results)).Pairwise (· < ·) := by
  unfold i_observationsOf selectObs
  rw [List.pairwise_map]
  exact (pairwise_fst_lt_enumFrom obs_results 0).filter _

/-- Every selected pair records a real position of the unfiltered node list. -/
theorem getElem?_of_mem_selectObs {obs_results : List ObsNode} {p : Nat × ObsNode}
    (h : p ∈ selectObs obs_results) : obs_results[p.1]? = some p.2 := by
  have h' := List.mem_of_mem_filter h
  rcases p with ⟨i, node⟩
  exact List.mk_mem_enum_iff_getElem?.mp h'

/-- Inversion of one successful single-channel rendering iteration. -/
theorem renderObsSingle_ok_inv {filters : List (Nat × List String)}
    {catalog_files : List String} {i_observations : List Nat}
    {obs_names : List String} {i_obs : Nat} {b : List String}
    (h : renderObsSingle filters catalog_files i_observations obs_names i_obs = .ok b) :
    ∃ io nm filts bs,
      i_observations[i_obs]? = some io ∧
      obs_names[i_obs]? = some nm ∧
      filters.lookup i_obs = some filts ∧
      b = obsHeader (io + 1) nm ++ bs.flatten ∧
      ((filts = [] ∧ bs = []) ∨
        ∃ c, catalog_files[i_obs]? = some c ∧
          bs = filts.map (fun t => singleFilterBlock t c)) := by
  unfold renderObsSingle at h
  obtain ⟨io, hio, h⟩ := bind_ok_inv h
  obtain ⟨nm, hnm, h⟩ := bind_ok_inv h
  obtain ⟨filts, hf, h⟩ := bind_ok_inv h
  obtain ⟨bs, hbs, h⟩ := bind_ok_inv h
  rw [Except.ok.injEq] at h
  exact ⟨io, nm, filts, bs, getOrErr_ok_inv hio, getOrErr_ok_inv hnm,
    getOrErr_ok_inv hf, h.symm, exMapM_catalog_ok_inv hbs⟩

/-- Shape of one successful dichroic rendering iteration. -/
theorem renderObsNIRCAM_ok_inv {sw_filters lw_filters : List (Nat × List String)}
    {ps_cat_sw ps_cat_lw : List String} {i_observations : List Nat}
    {obs_names : List String} {i_obs : Nat} {b : List String}
    (h : renderObsNIRCAM sw_filters lw_filters ps_cat_sw ps_cat_lw
          i_observations obs_names i_obs = .ok b) :
    ∃ io nm rest,
      i_observations[i_obs]? = some io ∧
      obs_names[i_obs]? = some nm ∧
      b = obsHeader (io + 1) nm ++ rest := by
  unfold renderObsNIRCAM at h
  obtain ⟨io, hio, h⟩ := bind_ok_inv h
  obtain ⟨nm, hnm, h⟩ := bind_ok_inv h
  obtain ⟨swf, hsw, h⟩ := bind_ok_inv h
  obtain ⟨lwf, hlw, h⟩ := bind_ok_inv h
  obtain ⟨bs, hbs, h⟩ := bind_ok_inv h
  rw [Except.ok.injEq] at h
  exact ⟨io, nm, bs.flatten, getOrErr_ok_inv hio, getOrErr_ok_inv hnm, h.symm⟩

/-- Evaluation of one single-channel rendering iteration when every access
succeeds. -/
theorem renderObsSingle_eval {filters : List (Nat × List String)}
    {catalog_files : List String} {i_observations : List Nat}
    {obs_names : List String} {i_obs io : Nat} {nm : String}
    {filts : List String} {c : String}
    (hio : i_observations[i_obs]? = some io)
    (hnm : obs_names[i_obs]? = some nm)
    (hf : filters.lookup i_obs = some filts)
    (hc : catalog_files[i_obs]? = some c) :
    renderObsSingle filters catalog_files i_observations obs_names i_obs =
      .ok (obsHeader (io + 1) nm ++
        (filts.map (fun t => singleFilterBlock t c)).flatten) := by
  unfold renderObsSingle
  rw [hio, hnm, hf]
  simp only [getOrErr, bind_ok]
  rw [exMapM_congr (g := fun t => Except.ok (singleFilterBlock t c))
    (by intro a _; rw [hc]; rfl), exMapM_pure, bind_ok]

/-- Evaluation of one dichroic rendering iteration when every access
succeeds. -/
theorem renderObsNIRCAM_eval {sw_filters lw_filters : List (Nat × List String)}
    {ps_cat_sw ps_cat_lw : List String} {i_observations : List Nat}
    {obs_names : List String} {i_obs io : Nat} {nm : String}
    {swf lwf : List String} {csw clw : String}
    (hio : i_observations[i_obs]? = some io)
    (hnm : obs_names[i_obs]? = some nm)
    (hsw : sw_filters.lookup (io + 1) = some swf)
    (hlw : lw_filters.lookup (io + 1) = some lwf)
    (hcsw : ps_cat_sw[i_obs]? = some csw)
    (hclw : ps_cat_lw[i_obs]? = some clw) :
    renderObsNIRCAM sw_filters lw_filters ps_cat_sw ps_cat_lw
        i_observations obs_names i_obs =
      .ok (obsHeader (io + 1) nm ++
        ((swf.zip lwf).enum.map
          (fun q => filterConfigBlock q.1 q.2.1 q.2.2 csw clw)).flatten) := by
  unfold renderObsNIRCAM
  rw [hio, hnm]
  simp only [getOrErr, bind_ok]
  rw [hsw, hlw]
  simp only [getOrErr, bind_ok]
  rw [exMapM_congr
    (g := fun q : Nat × (String × String) =>
      Except.ok (filterConfigBlock q.1 q.2.1 q.2.2 csw clw))
    (by intro a _; rw [hcsw, hclw]; rfl), exMapM_pure, bind_ok]

/-- `write_yamlWithOrder` specialised to a NIRISS exposure table. -/
theorem write_yaml_niriss_eq (obs_results : List ObsNode) (tbl : XmlTable)
    (catalog_files : List String) (ps_cat_sw ps_cat_lw : Option (List String))
    (order : List Nat) (hinst : tbl.Instrument.dedup = ["NIRISS"]) :
    write_yamlWithOrder obs_results tbl catalog_files ps_cat_sw ps_cat_lw order =
      (if 1 < (singleParamLengths
            (if catalog_files.length = 1
              then listRepeat catalog_files (selectObs obs_results).length
              else catalog_files)
            (buildGroups order tbl.ObservationID tbl.PupilWheel)
            (selectObs obs_results)).dedup.length
        then .error (.cardinality (singleParamLengths
            (if catalog_files.length = 1
              then listRepeat catalog_files (selectObs obs_results).length
              else catalog_files)
            (buildGroups order tbl.ObservationID tbl.PupilWheel)
            (selectObs obs_results)))
        else
          exMapM
            (renderObsSingle (buildGroups order tbl.ObservationID tbl.PupilWheel)
              (if catalog_files.length = 1
                then listRepeat catalog_files (selectObs obs_results).length
                else catalog_files)
              (i_observationsOf (selectObs obs_results))
              (obs_namesOf (selectObs obs_results)))
            (List.range (selectObs obs_results).length) >>=
          fun blocks => .ok (introLines ++ blocks.flatten)) := by
  unfold write_yamlWithOrder
  rw [hinst]
  rfl

set_option maxHeartbeats 1000000 in
/-- `write_yamlWithOrder` specialised to a NIRCAM or WFSC exposure table with
both per-channel catalog lists supplied. -/
theorem write_yaml_nircam_eq (obs_results : List ObsNode) (tbl : XmlTable)
    (catalog_files : List String) (psw plw : List String) (order : List Nat)
    (u : String) (hinst : tbl.Instrument.dedup = [u])
    (hu : u = "NIRCAM" ∨ u = "WFSC") :
    write_yamlWithOrder obs_results tbl catalog_files (some psw) (some plw) order =
      (if 1 < (dichroicParamLengths psw plw
            (buildGroups order tbl.ObservationID tbl.ShortFilter)
            (buildGroups order tbl.ObservationID tbl.LongFilter)
            (selectObs obs_results)).dedup.length
        then .error (.cardinality (dichroicParamLengths psw plw
            (buildGroups order tbl.ObservationID tbl.ShortFilter)
            (buildGroups order tbl.ObservationID tbl.LongFilter)
            (selectObs obs_results)))
        else
          exMapM
            (renderObsNIRCAM
              (buildGroups order tbl.ObservationID tbl.ShortFilter)
              (buildGroups order tbl.ObservationID tbl.LongFilter)
              psw plw
              (i_observationsOf (selectObs obs_results))
              (obs_namesOf (selectObs obs_results)))
            (List.range (selectObs obs_results).length) >>=
          fun blocks => .ok (introLines ++ blocks.flatten)) := by
  rcases hu with hu | hu <;> subst hu <;>
    (unfold write_yamlWithOrder; rw [hinst]; rfl)

/-- With more than one distinct instrument, the `NotImplementedError` fires
first, for every order and every other argument. -/
theorem write_yaml_multi_eq (obs_results : List ObsNode) (tbl : XmlTable)
    (catalog_files : List String) (ps_cat_sw ps_cat_lw : Option (List String))
    (order : List Nat) (h : 1 < tbl.Instrument.dedup.length) :
    write_yamlWithOrder obs_results tbl catalog_files ps_cat_sw ps_cat_lw order =
      .error .notImplemented := by
  unfold write_yamlWithOrder
  rw [if_pos h]

/-- On the dichroic path, a missing per-channel catalog list fails with
`TypeError` at `len(...)` regardless of everything else. -/
theorem write_yaml_nircam_none_eq (obs_results : List ObsNode) (tbl : XmlTable)
    (catalog_files : List String) (ps_cat_sw ps_cat_lw : Option (List String))
    (order : List Nat) (u : String) (hinst : tbl.Instrument.dedup = [u])
    (hu : u = "NIRCAM" ∨ u = "WFSC")
    (hnone : ps_cat_sw = none ∨ ps_cat_lw = none) :
    write_yamlWithOrder obs_results tbl catalog_files ps_cat_sw ps_cat_lw order =
      .error .typeError := by
  unfold write_yamlWithOrder
  rw [hinst]
  rcases hu with hu | hu <;> subst hu <;>
    (rcases hnone with h | h <;> subst h) <;>
    first
    | rfl
    | (cases ps_cat_sw with
       | none => rfl
       | some psw => rfl)

/-- With an exposure table whose instrument column is empty, indexing
`used_instruments[0]` fails with `IndexError`. -/
theorem write_yaml_empty_eq (obs_results : List ObsNode) (tbl : XmlTable)
    (catalog_files : List String) (ps_cat_sw ps_cat_lw : Option (List String))
    (order : List Nat) (hinst : tbl.Instrument.dedup = []) :
    write_yamlWithOrder obs_results tbl catalog_files ps_cat_sw ps_cat_lw order =
      .error .indexError := by
  unfold write_yamlWithOrder
  rw [hinst]
  rfl

/-- With a single instrument that matches neither setup branch (in particular
FGS), `write_yaml` reaches the validation line with `all_param_lengths`
unbound and dies with `NameError`. -/
theorem write_yaml_other_eq (obs_results : List ObsNode) (tbl : XmlTable)
    (catalog_files : List String) (ps_cat_sw ps_cat_lw : Option (List String))
    (order : List Nat) (u : String) (hinst : tbl.Instrument.dedup = [u])
    (h1 : ¬(u = "NIRCAM" ∨ u = "WFSC")) (h2 : ¬u = "NIRISS") :
    write_yamlWithOrder obs_results tbl catalog_files ps_cat_sw ps_cat_lw order =
      .error .nameError := by
  unfold write_yamlWithOrder
  rw [hinst]
  simp only [List.length_cons, List.length_nil]
  rw [if_neg (by omega)]
  rw [if_neg h1, if_neg h2]

/-! ### Spec-side definitions for the name-derivation claim -/

/-- The claim's trigger condition, modelled from the spec's words: the label
contains a parenthetical segment, i.e. a space followed by `'('` that is
terminated by a later `')'`. -/
def hasParenSeg : List Char → Bool
  | c :: d :: rest =>
    (c == ' ' && d == '(' && rest.contains ')') || hasParenSeg (d :: rest)
  | _ => false

/-- Spec-side containment check for the substring `" ("`: some suffix of the
label starts with a space followed by `'('`. -/
def containsSpaceParen (l : List Char) : Bool :=
  l.tails.any (fun s => [' ', '('].isPrefixOf s)

/-- The amended cut condition at one position: a `')'` here, or a space here
immediately followed by `'('`. -/
def cutAt : List Char → Bool
  | [] => false
  | [c] => c == ')'
  | c :: d :: _ => c == ')' || (c == ' ' && d == '(')

/-- The amended name-derivation rule, stated independently of the
implementation: whenever the label contains the substring `" ("` somewhere
and the character `')'` somewhere (in either order), the name is the label
truncated at the first position where either `')'` occurs or `" ("` begins;
otherwise the label is unchanged. -/
def deriveNameAmended (label : String) : String :=
  if containsSpaceParen label.toList && label.toList.contains ')' then
    String.mk (label.toList.take (label.toList.tails.findIdx cutAt))
  else label

theorem beq_comm_char (a b : Char) : (a == b) = (b == a) := by
  by_cases h : a = b
  · simp [h]
  · simp [beq_eq_false_iff_ne, h, Ne.symm h]

theorem hasSpaceParen_eq_containsSpaceParen (l : List Char) :
    hasSpaceParen l = containsSpaceParen l := by
  induction l with
  | nil => rfl
  | cons c tail ih =>
    cases tail with
    | nil =>
      simp [hasSpaceParen, containsSpaceParen, List.isPrefixOf]
    | cons d rest =>
      simp only [hasSpaceParen, containsSpaceParen, List.tails_cons,
        List.any_cons, List.isPrefixOf] at *
      rw [ih, beq_comm_char c ' ', beq_comm_char d '(']
      simp [Bool.or_comm, Bool.or_assoc, Bool.and_assoc]

theorem parenCut_eq_take_findIdx (l : List Char) :
    parenCut l = l.take (l.tails.findIdx cutAt) := by
  induction l with
  | nil => rfl
  | cons c tail ih =>
    cases tail with
    | nil =>
      by_cases hc : c = ')'
      · subst hc; rfl
      · have hb : (c == ')') = false := by simp [hc]
        simp [parenCut, cutAt, List.tails_cons, List.findIdx_cons, hc, hb]
    | cons d rest =>
      by_cases hc : c = ')'
      · subst hc
        simp [parenCut, cutAt, List.tails_cons, List.findIdx_cons]
      · have hb : (c == ')') = false := by simp [hc]
        by_cases hcd : c = ' ' ∧ d = '('
        · obtain ⟨h1, h2⟩ := hcd
          subst h1; subst h2
          simp [parenCut, cutAt, List.tails_cons, List.findIdx_cons]
        · have hb2 : (c == ' ' && d == '(') = false := by
            rcases not_and_or.mp hcd with h | h <;> simp [h]
          have hcut : cutAt (c :: d :: rest) = false := by
            simp only [cutAt, hb, hb2, Bool.or_self]
          rw [List.tails_cons, List.findIdx_cons, hcut]
          simp only [cond_false, List.take_succ_cons]
          rw [← ih]
          simp [parenCut, hc, hcd]

/-- C7 counterexample: `"a) (b"` has no parenthetical segment in the claim's
sense (its `" ("` is never terminated by a later `')'`), so the claim says
the name equals the label unchanged, yet the code's condition `(' (' in
label) and (')' in label)` fires and the name becomes `"a"`. -/
theorem C7_counterexample :
    hasParenSeg "a) (b".toList = false ∧
    deriveName "a) (b" = "a" ∧
    "a" ≠ "a) (b" := by decide

/-- C7 amended: the derived name equals the label truncated at the first
occurrence of either `')'` or `" ("` whenever the label contains the
substring `" ("` anywhere and the character `')'` anywhere (in either order,
not necessarily forming a terminated parenthetical); otherwise the label is
passed through unchanged. -/
theorem C7_name_derivation_amended (label : String) :
    deriveName label = deriveNameAmended label := by
  unfold deriveName deriveNameAmended
  rw [hasSpaceParen_eq_containsSpaceParen, parenCut_eq_take_findIdx]

/-- C1: the claim says a single-instrument NIRISS-or-FGS proposal completes
under the single-channel schema, but the setup branch tests membership in
`['NIRISS']` only, so a single-instrument FGS proposal never binds
`all_param_lengths` and the run dies with `NameError` at the validation line
(the rendering dispatch does list `['NIRISS', 'FGS']`, so the omission
contradicts the code's own structure); no output is written. -/
theorem C1_fgs_proposal_name_error :
    write_yaml [⟨"FGS", "Obs 1"⟩]
      { Instrument := ["FGS"], ShortFilter := [], LongFilter := [],
        PupilWheel := ["F1"], TileNumber := [1], ObservationID := [0] }
      ["cat.list"] none none = .error .nameError := by
  rfl

/-- C3: for an FGS proposal with 2 catalog paths and 3 selected observations
the claim demands a cardinality error reporting the mismatched lengths, but
the run dies with `NameError` (the `['NIRISS']`-only setup branch never binds
`all_param_lengths`), never reaching the cardinality check; in particular no
cardinality diagnostic is produced.  No output is written either way. -/
theorem C3_fgs_mismatch_no_cardinality_error :
    write_yaml [⟨"FGS", "A"⟩, ⟨"FGS", "B"⟩, ⟨"FGS", "C"⟩]
      { Instrument := ["FGS", "FGS", "FGS"], ShortFilter := [], LongFilter := [],
        PupilWheel := ["F1", "F2", "F3"], TileNumber := [1, 1, 1],
        ObservationID := [0, 1, 2] }
      ["c1", "c2"] none none = .error .nameError ∧
    ∀ lengths : List Nat,
      write_yaml [⟨"FGS", "A"⟩, ⟨"FGS", "B"⟩, ⟨"FGS", "C"⟩]
        { Instrument := ["FGS", "FGS", "FGS"], ShortFilter := [], LongFilter := [],
          PupilWheel := ["F1", "F2", "F3"], TileNumber := [1, 1, 1],
          ObservationID := [0, 1, 2] }
        ["c1", "c2"] none none ≠ .error (.cardinality lengths) := by
  refine ⟨by rfl, ?_⟩
  intro lengths h
  rw [show write_yaml [⟨"FGS", "A"⟩, ⟨"FGS", "B"⟩, ⟨"FGS", "C"⟩]
      { Instrument := ["FGS", "FGS", "FGS"], ShortFilter := [], LongFilter := [],
        PupilWheel := ["F1", "F2", "F3"], TileNumber := [1, 1, 1],
        ObservationID := [0, 1, 2] }
      ["c1", "c2"] none none = .error .nameError from rfl] at h
  exact absurd h (by simp)

/-- C4: more than one distinct instrument in the flattened exposure table
makes the conversion fail with `NotImplementedError`; the raise sits before
the grouping loop (the result does not depend on any filter column, the tile
numbers, or the observation ids) and no output lines are produced. -/
theorem C4_mixed_instruments_not_implemented (obs_results : List ObsNode)
    (tbl : XmlTable) (catalog_files : List String)
    (ps_cat_sw ps_cat_lw : Option (List String))
    (h : 1 < tbl.Instrument.dedup.length) :
    write_yaml obs_results tbl catalog_files ps_cat_sw ps_cat_lw =
      .error .notImplemented := by
  unfold write_yaml
  exact write_yaml_multi_eq obs_results tbl catalog_files ps_cat_sw ps_cat_lw
    tbl.ObservationID.dedup h

theorem C4_witness :
    1 < (["NIRCAM", "NIRISS"] : List String).dedup.length ∧
    write_yaml [⟨"NIRCAM", "A"⟩]
      { Instrument := ["NIRCAM", "NIRISS"], ShortFilter := ["a", "b"],
        LongFilter := ["c", "d"], PupilWheel := ["e", "f"],
        TileNumber := [1, 2], ObservationID := [1, 2] }
      ["c"] none none = .error .notImplemented :=
  ⟨by decide, C4_mixed_instruments_not_implemented _ _ _ _ _ (by decide)⟩

/-- C10: on the dichroic (NIRCAM/WFSC) path, leaving `ps_cat_sw` or
`ps_cat_lw` at its default `None` fails with `TypeError` when
`len(ps_cat_sw)` / `len(ps_cat_lw)` is evaluated; since this holds for every
table and catalog argument, the failure precedes the cardinality validation
and no output is written — an undocumented precondition that both
per-channel catalog lists be supplied. -/
theorem C10_none_catalog_type_error (obs_results : List ObsNode)
    (tbl : XmlTable) (catalog_files : List String)
    (ps_cat_sw ps_cat_lw : Option (List String)) (u : String)
    (hinst : tbl.Instrument.dedup = [u]) (hu : u = "NIRCAM" ∨ u = "WFSC")
    (hnone : ps_cat_sw = none ∨ ps_cat_lw = none) :
    write_yaml obs_results tbl catalog_files ps_cat_sw ps_cat_lw =
      .error .typeError := by
  unfold write_yaml
  exact write_yaml_nircam_none_eq obs_results tbl catalog_files ps_cat_sw ps_cat_lw
    tbl.ObservationID.dedup u hinst hu hnone

theorem C10_witness :
    ({ Instrument := ["NIRCAM"], ShortFilter := ["F070W"], LongFilter := ["F277W"],
       PupilWheel := [], TileNumber := [1], ObservationID := [1] } : XmlTable).Instrument.dedup
      = ["NIRCAM"] ∧
    write_yaml [⟨"NIRCAM", "B"⟩]
      { Instrument := ["NIRCAM"], ShortFilter := ["F070W"], LongFilter := ["F277W"],
        PupilWheel := [], TileNumber := [1], ObservationID := [1] }
      [] none (some ["lw.cat"]) = .error .typeError :=
  ⟨by decide, C10_none_catalog_type_error _ _ _ _ _ "NIRCAM" (by decide)
    (Or.inl rfl) (Or.inl rfl)⟩

theorem renderObsNIRCAM_lookup_congr {g1sw g2sw g1lw g2lw : List (Nat × List String)}
    {psw plw : List String} {ios : List Nat} {nms : List String} {i : Nat}
    (hsw : ∀ k, g1sw.lookup k = g2sw.lookup k)
    (hlw : ∀ k, g1lw.lookup k = g2lw.lookup k) :
    renderObsNIRCAM g1sw g1lw psw plw ios nms i =
    renderObsNIRCAM g2sw g2lw psw plw ios nms i := by
  unfold renderObsNIRCAM
  simp only [hsw, hlw]

theorem renderObsSingle_lookup_congr {g1 g2 : List (Nat × List String)}
    {cats : List String} {ios : List Nat} {nms : List String} {i : Nat}
    (hg : ∀ k, g1.lookup k = g2.lookup k) :
    renderObsSingle g1 cats ios nms i = renderObsSingle g2 cats ios nms i := by
  unfold renderObsSingle
  simp only [hg]

set_option maxHeartbeats 1600000 in
/-- C9: the embedding is a pure function of its inputs, and the one source of
run-to-run nondeterminism in the Python code — the iteration order of
`set(observation_ids)` used to build the filter dictionaries — does not
affect the result: any two enumerations of the distinct observation ids
yield identical output (or the identical error), so re-running the pipeline
on identical inputs produces byte-identical output text. -/
theorem C9_order_independent (obs_results : List ObsNode) (tbl : XmlTable)
    (catalog_files : List String) (ps_cat_sw ps_cat_lw : Option (List String))
    (order₁ order₂ : List Nat)
    (h₁ : List.Perm order₁ tbl.ObservationID.dedup)
    (h₂ : List.Perm order₂ tbl.ObservationID.dedup) :
    write_yamlWithOrder obs_results tbl catalog_files ps_cat_sw ps_cat_lw order₁ =
    write_yamlWithOrder obs_results tbl catalog_files ps_cat_sw ps_cat_lw order₂ := by
  have hmem : ∀ x : Nat, x ∈ order₁ ↔ x ∈ order₂ := fun x => by
    rw [h₁.mem_iff, h₂.mem_iff]
  have hlen : order₁.length = order₂.length := by
    rw [h₁.length_eq, h₂.length_eq]
  have hlk : ∀ (vals : List String) (k : Nat),
      (buildGroups order₁ tbl.ObservationID vals).lookup k =
      (buildGroups order₂ tbl.ObservationID vals).lookup k := by
    intro vals k
    rw [lookup_buildGroups, lookup_buildGroups]
    by_cases h : k ∈ order₁
    · rw [if_pos h, if_pos ((hmem k).mp h)]
    · rw [if_neg h, if_neg (fun hh => h ((hmem k).mpr hh))]
  by_cases hni : 1 < tbl.Instrument.dedup.length
  · unfold write_yamlWithOrder
    simp only [if_pos hni]
  · cases hdd : tbl.Instrument.dedup with
    | nil =>
      unfold write_yamlWithOrder
      rw [hdd]
    | cons u tail =>
      have htail : tail = [] := by
        rw [hdd] at hni
        simp only [List.length_cons, not_lt] at hni
        exact List.eq_nil_of_length_eq_zero (by omega)
      subst htail
      by_cases hu1 : u = "NIRCAM" ∨ u = "WFSC"
      · cases ps_cat_sw with
        | none =>
          rcases hu1 with hu | hu <;> subst hu <;>
            (unfold write_yamlWithOrder; rw [hdd]; rfl)
        | some psw =>
          cases ps_cat_lw with
          | none =>
            rcases hu1 with hu | hu <;> subst hu <;>
              (unfold write_yamlWithOrder; rw [hdd]; rfl)
          | some plw =>
            have hlens : dichroicParamLengths psw plw
                (buildGroups order₁ tbl.ObservationID tbl.ShortFilter)
                (buildGroups order₁ tbl.ObservationID tbl.LongFilter)
                (selectObs obs_results) =
                dichroicParamLengths psw plw
                (buildGroups order₂ tbl.ObservationID tbl.ShortFilter)
                (buildGroups order₂ tbl.ObservationID tbl.LongFilter)
                (selectObs obs_results) := by
              simp [dichroicParamLengths, buildGroups, hlen]
            have hex : exMapM
                (renderObsNIRCAM
                  (buildGroups order₁ tbl.ObservationID tbl.ShortFilter)
                  (buildGroups order₁ tbl.ObservationID tbl.LongFilter) psw plw
                  (i_observationsOf (selectObs obs_results))
                  (obs_namesOf (selectObs obs_results)))
                (List.range (selectObs obs_results).length) =
                exMapM
                (renderObsNIRCAM
                  (buildGroups order₂ tbl.ObservationID tbl.ShortFilter)
                  (buildGroups order₂ tbl.ObservationID tbl.LongFilter) psw plw
                  (i_observationsOf (selectObs obs_results))
                  (obs_namesOf (selectObs obs_results)))
                (List.range (selectObs obs_results).length) :=
              exMapM_congr (fun i _ =>
                renderObsNIRCAM_lookup_congr (hlk tbl.ShortFilter) (hlk tbl.LongFilter))
            rw [write_yaml_nircam_eq obs_results tbl catalog_files psw plw order₁ u hdd hu1,
              write_yaml_nircam_eq obs_results tbl catalog_files psw plw order₂ u hdd hu1,
              hlens, hex]
      · by_cases hu2 : u = "NIRISS"
        · subst hu2
          have hlens : singleParamLengths
              (if catalog_files.length = 1
                then listRepeat catalog_files (selectObs obs_results).length
                else catalog_files)
              (buildGroups order₁ tbl.ObservationID tbl.PupilWheel)
              (selectObs obs_results) =
              singleParamLengths
              (if catalog_files.length = 1
                then listRepeat catalog_files (selectObs obs_results).length
                else catalog_files)
              (buildGroups order₂ tbl.ObservationID tbl.PupilWheel)
              (selectObs obs_results) := by
            simp [singleParamLengths, buildGroups, hlen]
          have hex : exMapM
              (renderObsSingle
                (buildGroups order₁ tbl.ObservationID tbl.PupilWheel)
                (if catalog_files.length = 1
                  then listRepeat catalog_files (selectObs obs_results).length
                  else catalog_files)
                (i_observationsOf (selectObs obs_results))
                (obs_namesOf (selectObs obs_results)))
              (List.range (selectObs obs_results).length) =
              exMapM
              (renderObsSingle
                (buildGroups order₂ tbl.ObservationID tbl.PupilWheel)
                (if catalog_files.length = 1
                  then listRepeat catalog_files (selectObs obs_results).length
                  else catalog_files)
                (i_observationsOf (selectObs obs_results))
                (obs_namesOf (selectObs obs_results)))
              (List.range (selectObs obs_results).length) :=
            exMapM_congr (fun i _ =>
              renderObsSingle_lookup_congr (hlk tbl.PupilWheel))
          rw [write_yaml_niriss_eq obs_results tbl catalog_files ps_cat_sw ps_cat_lw
              order₁ hdd,
            write_yaml_niriss_eq obs_results tbl catalog_files ps_cat_sw ps_cat_lw
              order₂ hdd,
            hlens, hex]
        · rw [write_yaml_other_eq obs_results tbl catalog_files ps_cat_sw ps_cat_lw
              order₁ u hdd hu1 hu2,
            write_yaml_other_eq obs_results tbl catalog_files ps_cat_sw ps_cat_lw
              order₂ u hdd hu1 hu2]

theorem C9_witness :
    List.Perm [1, 0] (([0, 1, 1] : List Nat).dedup) ∧
    List.Perm [0, 1] (([0, 1, 1] : List Nat).dedup) ∧
    write_yamlWithOrder [⟨"NIRISS", "A"⟩, ⟨"NIRISS", "B"⟩]
      { Instrument := ["NIRISS", "NIRISS", "NIRISS"], ShortFilter := [],
        LongFilter := [], PupilWheel := ["F1", "F2", "F2"],
        TileNumber := [1, 1, 2], ObservationID := [0, 1, 1] }
      ["c"] none none [1, 0] =
    write_yamlWithOrder [⟨"NIRISS", "A"⟩, ⟨"NIRISS", "B"⟩]
      { Instrument := ["NIRISS", "NIRISS", "NIRISS"], ShortFilter := [],
        LongFilter := [], PupilWheel := ["F1", "F2", "F2"],
        TileNumber := [1, 1, 2], ObservationID := [0, 1, 1] }
      ["c"] none none [0, 1] :=
  ⟨by decide, by decide,
    C9_order_independent _ _ _ _ _ _ _ (by decide) (by decide)⟩

theorem mem_of_maskSelect_ne_nil {ids : List Nat} {vals : List String} {k : Nat}
    (h : maskSelect ids vals k ≠ []) : k ∈ ids := by
  unfold maskSelect at h
  rw [ne_eq, List.map_eq_nil_iff] at h
  obtain ⟨p, hp⟩ := List.exists_mem_of_ne_nil _ h
  obtain ⟨hz, hk⟩ := List.mem_filter.mp hp
  have h1 := (List.of_mem_zip hz).1
  have h2 : p.1 = k := by simpa using hk
  rwa [h2] at h1

/-- C6 counterexample: within observation id 1 the long-wavelength filters
differ (`X` vs `Y`, first conjunct), yet the dichroic branch's diagnostic
inspects only the short-wavelength column, so no notice is raised (second
conjunct), refuting the claim's `any channel (short, long, or single)`; the
long-wavelength group is nevertheless formed from the full heterogeneous
sequence (third conjunct). -/
theorem C6_counterexample :
    1 < ((maskSelect [1, 1] ["X", "Y"] 1).dedup).length ∧
    dichroicNotice
      { Instrument := ["NIRCAM", "NIRCAM"], ShortFilter := ["A", "A"],
        LongFilter := ["X", "Y"], PupilWheel := [], TileNumber := [1, 1],
        ObservationID := [1, 1] } 1 = false ∧
    (buildGroups (([1, 1] : List Nat).dedup) [1, 1] ["X", "Y"]).lookup 1 =
      some ["X", "Y"] := by decide

/-- The dichroic inner rendering loop, inverted: an `ok` result means either
no `(sw, lw)` pair at all, or both catalog accesses succeeded and one
`FilterConfig` block per pair was produced. -/
theorem exMapM_catalog2_ok_inv {α β : Type} {o1 o2 : Option String}
    {g : α → String → String → β} {l : List α} {bs : List β} {e1 e2 : Err}
    (h : exMapM (fun t => getOrErr e1 o1 >>= fun c1 =>
          getOrErr e2 o2 >>= fun c2 => Except.ok (g t c1 c2)) l = .ok bs) :
    (l = [] ∧ bs = []) ∨
    ∃ c1 c2, o1 = some c1 ∧ o2 = some c2 ∧
      bs = l.map (fun t => g t c1 c2) := by
  cases o1 with
  | some c1 =>
    cases o2 with
    | some c2 =>
      refine Or.inr ⟨c1, c2, rfl, rfl, ?_⟩
      rw [exMapM_congr (g := fun t => Except.ok (g t c1 c2))
        (by intro a _; rfl), exMapM_pure] at h
      simpa using h.symm
    | none =>
      cases l with
      | nil => exact Or.inl ⟨rfl, by simpa [exMapM_nil] using h.symm⟩
      | cons a as =>
        rw [exMapM_cons] at h
        exact absurd h (by simp [getOrErr, Bind.bind, Except.bind])
  | none =>
    cases l with
    | nil => exact Or.inl ⟨rfl, by simpa [exMapM_nil] using h.symm⟩
    | cons a as =>
      rw [exMapM_cons] at h
      exact absurd h (by simp [getOrErr, Bind.bind, Except.bind])

/-- Full inversion of one successful dichroic rendering iteration. -/
theorem renderObsNIRCAM_ok_full_inv {sw_filters lw_filters : List (Nat × List String)}
    {ps_cat_sw ps_cat_lw : List String} {i_observations : List Nat}
    {obs_names : List String} {i_obs : Nat} {b : List String}
    (h : renderObsNIRCAM sw_filters lw_filters ps_cat_sw ps_cat_lw
          i_observations obs_names i_obs = .ok b) :
    ∃ io nm swf lwf bs,
      i_observations[i_obs]? = some io ∧
      obs_names[i_obs]? = some nm ∧
      sw_filters.lookup (io + 1) = some swf ∧
      lw_filters.lookup (io + 1) = some lwf ∧
      b = obsHeader (io + 1) nm ++ bs.flatten ∧
      (((swf.zip lwf).enum = [] ∧ bs = []) ∨
        ∃ csw clw, ps_cat_sw[i_obs]? = some csw ∧ ps_cat_lw[i_obs]? = some clw ∧
          bs = (swf.zip lwf).enum.map
            (fun q => filterConfigBlock q.1 q.2.1 q.2.2 csw clw)) := by
  unfold renderObsNIRCAM at h
  obtain ⟨io, hio, h⟩ := bind_ok_inv h
  obtain ⟨nm, hnm, h⟩ := bind_ok_inv h
  obtain ⟨swf, hsw, h⟩ := bind_ok_inv h
  obtain ⟨lwf, hlw, h⟩ := bind_ok_inv h
  obtain ⟨bs, hbs, h⟩ := bind_ok_inv h
  rw [Except.ok.injEq] at h
  exact ⟨io, nm, swf, lwf, bs, getOrErr_ok_inv hio, getOrErr_ok_inv hnm,
    getOrErr_ok_inv hsw, getOrErr_ok_inv hlw, h.symm, exMapM_catalog2_ok_inv hbs⟩

/-- A successful lookup in a built filter dictionary identifies the key as a
dictionary key and the value as the full mask-selected sequence. -/
theorem buildGroups_lookup_ok {order ids : List Nat} {vals : List String}
    {k : Nat} {v : List String}
    (h : (buildGroups order ids vals).lookup k = some v) :
    k ∈ order ∧ v = maskSelect ids vals k := by
  rw [lookup_buildGroups] at h
  by_cases hm : k ∈ order
  · rw [if_pos hm, Option.some.injEq] at h
    exact ⟨hm, h.symm⟩
  · rw [if_neg hm] at h
    exact absurd h (by simp)

/-- C6 amended, covering both instrument families.
Single-channel family: a non-uniform `PupilWheel` sequence within one
observation id raises the diagnostic notice, the group is still the full
heterogeneous sequence, and a successful rendering of that observation emits
one flat block per filter of that full sequence.
Dichroic family: a non-uniform `ShortFilter` sequence raises the notice
(only the short-wavelength column is inspected — the counterexample shows a
long-wavelength-only inconsistency is silent); for every observation id
present in the table, both the SW and LW groups are formed from the full
mask-selected sequences; and every successful dichroic rendering emits one
`FilterConfig` block per `(short, long)` pair of the zipped full sequences.
In all cases nothing is dropped and control flow is unchanged. -/
theorem C6_inconsistent_filters_amended (tbl : XmlTable) (id : Nat) :
    (1 < ((maskSelect tbl.ObservationID tbl.PupilWheel id).dedup).length →
      singleNotice tbl id = true ∧
      (buildGroups tbl.ObservationID.dedup tbl.ObservationID
        tbl.PupilWheel).lookup id =
        some (maskSelect tbl.ObservationID tbl.PupilWheel id) ∧
      ∀ (catalog_files : List String) (i_observations : List Nat)
        (obs_names : List String) (b : List String),
        renderObsSingle
            (buildGroups tbl.ObservationID.dedup tbl.ObservationID tbl.PupilWheel)
            catalog_files i_observations obs_names id = .ok b →
        ∃ io nm c, b = obsHeader (io + 1) nm ++
          ((maskSelect tbl.ObservationID tbl.PupilWheel id).map
            (fun t => singleFilterBlock t c)).flatten) ∧
    (1 < ((maskSelect tbl.ObservationID tbl.ShortFilter id).dedup).length →
      dichroicNotice tbl id = true) ∧
    (id ∈ tbl.ObservationID →
      (buildGroups tbl.ObservationID.dedup tbl.ObservationID
        tbl.ShortFilter).lookup id =
        some (maskSelect tbl.ObservationID tbl.ShortFilter id) ∧
      (buildGroups tbl.ObservationID.dedup tbl.ObservationID
        tbl.LongFilter).lookup id =
        some (maskSelect tbl.ObservationID tbl.LongFilter id)) ∧
    (∀ (ps_cat_sw ps_cat_lw : List String) (i_observations : List Nat)
       (obs_names : List String) (i_obs : Nat) (b : List String),
      renderObsNIRCAM
          (buildGroups tbl.ObservationID.dedup tbl.ObservationID tbl.ShortFilter)
          (buildGroups tbl.ObservationID.dedup tbl.ObservationID tbl.LongFilter)
          ps_cat_sw ps_cat_lw i_observations obs_names i_obs = .ok b →
      ∃ io nm csw clw, i_observations[i_obs]? = some io ∧
        b = obsHeader (io + 1) nm ++
          (((maskSelect tbl.ObservationID tbl.ShortFilter (io + 1)).zip
            (maskSelect tbl.ObservationID tbl.LongFilter (io + 1))).enum.map
            (fun q => filterConfigBlock q.1 q.2.1 q.2.2 csw clw)).flatten) := by
  refine ⟨?_, ?_, ?_, ?_⟩
  · intro h
    have hne : maskSelect tbl.ObservationID tbl.PupilWheel id ≠ [] := by
      intro hh
      rw [hh] at h
      exact absurd h (by simp)
    have hid : id ∈ tbl.ObservationID := mem_of_maskSelect_ne_nil hne
    have hlook : (buildGroups tbl.ObservationID.dedup tbl.ObservationID
        tbl.PupilWheel).lookup id =
        some (maskSelect tbl.ObservationID tbl.PupilWheel id) := by
      rw [lookup_buildGroups, if_pos (List.mem_dedup.mpr hid)]
    refine ⟨by simp [singleNotice, multiFilterNotice, h], hlook, ?_⟩
    intro cats ios nms b hb
    obtain ⟨io, nm, filts, bs, hio, hnm, hf, hbshape, hcase⟩ :=
      renderObsSingle_ok_inv hb
    rw [hlook, Option.some.injEq] at hf
    rcases hcase with ⟨hfil, _⟩ | ⟨c, hc, hbs⟩
    · rw [hf] at hne
      exact absurd hfil hne
    · exact ⟨io, nm, c, by rw [hbshape, hbs, ← hf]⟩
  · intro h
    simp [dichroicNotice, multiFilterNotice, h]
  · intro hid
    constructor <;>
      rw [lookup_buildGroups, if_pos (List.mem_dedup.mpr hid)]
  · intro psw plw ios nms i_obs b hb
    obtain ⟨io, nm, swf, lwf, bs, hio, hnm, hsw, hlw, hshape, hcase⟩ :=
      renderObsNIRCAM_ok_full_inv hb
    have hswf := (buildGroups_lookup_ok hsw).2
    have hlwf := (buildGroups_lookup_ok hlw).2
    rcases hcase with ⟨hzip, hbsnil⟩ | ⟨csw, clw, hcsw, hclw, hbs⟩
    · refine ⟨io, nm, "", "", hio, ?_⟩
      rw [hshape, hbsnil, ← hswf, ← hlwf, hzip]
      simp
    · refine ⟨io, nm, csw, clw, hio, ?_⟩
      rw [hshape, hbs, hswf, hlwf]

theorem C6_witness :
    singleNotice
      { Instrument := ["NIRCAM", "NIRCAM"], ShortFilter := ["A", "B"],
        LongFilter := ["X", "Y"], PupilWheel := ["P", "Q"],
        TileNumber := [1, 1], ObservationID := [1, 1] } 1 = true ∧
    dichroicNotice
      { Instrument := ["NIRCAM", "NIRCAM"], ShortFilter := ["A", "B"],
        LongFilter := ["X", "Y"], PupilWheel := ["P", "Q"],
        TileNumber := [1, 1], ObservationID := [1, 1] } 1 = true ∧
    (buildGroups (([1, 1] : List Nat).dedup) [1, 1] ["A", "B"]).lookup 1 =
      some (maskSelect [1, 1] ["A", "B"] 1) ∧
    (buildGroups (([1, 1] : List Nat).dedup) [1, 1] ["X", "Y"]).lookup 1 =
      some (maskSelect [1, 1] ["X", "Y"] 1) :=
  ⟨((C6_inconsistent_filters_amended
      { Instrument := ["NIRCAM", "NIRCAM"], ShortFilter := ["A", "B"],
        LongFilter := ["X", "Y"], PupilWheel := ["P", "Q"],
        TileNumber := [1, 1], ObservationID := [1, 1] } 1).1 (by decide)).1,
   (C6_inconsistent_filters_amended
      { Instrument := ["NIRCAM", "NIRCAM"], ShortFilter := ["A", "B"],
        LongFilter := ["X", "Y"], PupilWheel := ["P", "Q"],
        TileNumber := [1, 1], ObservationID := [1, 1] } 1).2.1 (by decide),
   ((C6_inconsistent_filters_amended
      { Instrument := ["NIRCAM", "NIRCAM"], ShortFilter := ["A", "B"],
        LongFilter := ["X", "Y"], PupilWheel := ["P", "Q"],
        TileNumber := [1, 1], ObservationID := [1, 1] } 1).2.2.1 (by decide)).1,
   ((C6_inconsistent_filters_amended
      { Instrument := ["NIRCAM", "NIRCAM"], ShortFilter := ["A", "B"],
        LongFilter := ["X", "Y"], PupilWheel := ["P", "Q"],
        TileNumber := [1, 1], ObservationID := [1, 1] } 1).2.2.1 (by decide)).2⟩

/-- C2 counterexample: on this NIRISS input every per-observation collection
has length 1, so the cardinality validation passes (first conjunct: exactly
one distinct length), yet rendering fails on the dictionary access
`filters[0]` because the filter dictionary is keyed by the observation id 5,
not by the loop position 0 (second conjunct): passing validation does not
make every subsequent per-observation lookup safe. -/
theorem C2_counterexample :
    (singleParamLengths ["c"]
        (buildGroups (([5] : List Nat).dedup) [5] ["F1"])
        (selectObs [⟨"NIRISS", "A"⟩])).dedup.length = 1 ∧
    write_yaml [⟨"NIRISS", "A"⟩]
      { Instrument := ["NIRISS"], ShortFilter := [], LongFilter := [],
        PupilWheel := ["F1"], TileNumber := [1], ObservationID := [5] }
      ["c"] none none = .error (.keyError 0) := ⟨by decide, by rfl⟩

set_option maxHeartbeats 1600000 in
/-- C2 amended: when the cardinality validation passes, every positional
(index-based) access during rendering is in range, but the filter groups are
fetched from a dictionary keyed by observation id (dichroic family: key
`i_observations[i] + 1`; single-channel family: key equal to the loop
position `i`), and validation never checks those keys; when additionally
every required key occurs among the observation ids, rendering performs only
successful accesses and the whole conversion completes. -/
theorem C2_validation_amended (obs_results : List ObsNode) (tbl : XmlTable)
    (catalog_files : List String) (ps_cat_sw ps_cat_lw : Option (List String))
    (h :
      (∃ u psw plw, tbl.Instrument.dedup = [u] ∧ (u = "NIRCAM" ∨ u = "WFSC") ∧
        ps_cat_sw = some psw ∧ ps_cat_lw = some plw ∧
        (dichroicParamLengths psw plw
          (buildGroups tbl.ObservationID.dedup tbl.ObservationID tbl.ShortFilter)
          (buildGroups tbl.ObservationID.dedup tbl.ObservationID tbl.LongFilter)
          (selectObs obs_results)).dedup.length ≤ 1 ∧
        (∀ p ∈ selectObs obs_results, p.1 + 1 ∈ tbl.ObservationID)) ∨
      (tbl.Instrument.dedup = ["NIRISS"] ∧
        (singleParamLengths
          (if catalog_files.length = 1
            then listRepeat catalog_files (selectObs obs_results).length
            else catalog_files)
          (buildGroups tbl.ObservationID.dedup tbl.ObservationID tbl.PupilWheel)
          (selectObs obs_results)).dedup.length ≤ 1 ∧
        (∀ i, i < (selectObs obs_results).length → i ∈ tbl.ObservationID))) :
    ∃ lines, write_yaml obs_results tbl catalog_files ps_cat_sw ps_cat_lw =
      .ok lines := by
  rcases h with ⟨u, psw, plw, hinst, hu, hsw, hlw, hval, hkeys⟩ | ⟨hinst, hval, hkeys⟩
  · subst hsw
    subst hlw
    have hpswlen : psw.length = (selectObs obs_results).length :=
      all_eq_of_dedup_length_le_one hval
        (by simp [dichroicParamLengths]) (by simp [dichroicParamLengths])
    have hplwlen : plw.length = (selectObs obs_results).length :=
      all_eq_of_dedup_length_le_one hval
        (by simp [dichroicParamLengths]) (by simp [dichroicParamLengths])
    have hrender : ∀ i ∈ List.range (selectObs obs_results).length,
        ∃ b, renderObsNIRCAM
          (buildGroups tbl.ObservationID.dedup tbl.ObservationID tbl.ShortFilter)
          (buildGroups tbl.ObservationID.dedup tbl.ObservationID tbl.LongFilter)
          psw plw (i_observationsOf (selectObs obs_results))
          (obs_namesOf (selectObs obs_results)) i = .ok b := by
      intro i hi
      rw [List.mem_range] at hi
      have hios : (i_observationsOf (selectObs obs_results))[i]? =
          some ((selectObs obs_results)[i].1) := by
        simp [i_observationsOf, List.getElem?_map, List.getElem?_eq_getElem hi]
      have hnms : (obs_namesOf (selectObs obs_results))[i]? =
          some (deriveName ((selectObs obs_results)[i].2.label)) := by
        simp [obs_namesOf, List.getElem?_map, List.getElem?_eq_getElem hi]
      have hkey : (selectObs obs_results)[i].1 + 1 ∈ tbl.ObservationID :=
        hkeys _ (List.getElem_mem hi)
      have hswlook := lookup_buildGroups tbl.ObservationID tbl.ShortFilter
        ((selectObs obs_results)[i].1 + 1) tbl.ObservationID.dedup
      have hlwlook := lookup_buildGroups tbl.ObservationID tbl.LongFilter
        ((selectObs obs_results)[i].1 + 1) tbl.ObservationID.dedup
      rw [if_pos (List.mem_dedup.mpr hkey)] at hswlook hlwlook
      have hpsw : psw[i]? = some psw[i] :=
        List.getElem?_eq_getElem (by omega)
      have hplw : plw[i]? = some plw[i] :=
        List.getElem?_eq_getElem (by omega)
      exact ⟨_, renderObsNIRCAM_eval hios hnms hswlook hlwlook hpsw hplw⟩
    obtain ⟨blocks, hblocks⟩ := exMapM_ok_of_forall hrender
    refine ⟨introLines ++ blocks.flatten, ?_⟩
    unfold write_yaml
    rw [write_yaml_nircam_eq obs_results tbl catalog_files psw plw
      tbl.ObservationID.dedup u hinst hu]
    rw [if_neg (by omega), hblocks, bind_ok]
  · have hcatlen :
        (if catalog_files.length = 1
          then listRepeat catalog_files (selectObs obs_results).length
          else catalog_files).length = (selectObs obs_results).length :=
      all_eq_of_dedup_length_le_one hval
        (by simp [singleParamLengths]) (by simp [singleParamLengths])
    have hrender : ∀ i ∈ List.range (selectObs obs_results).length,
        ∃ b, renderObsSingle
          (buildGroups tbl.ObservationID.dedup tbl.ObservationID tbl.PupilWheel)
          (if catalog_files.length = 1
            then listRepeat catalog_files (selectObs obs_results).length
            else catalog_files)
          (i_observationsOf (selectObs obs_results))
          (obs_namesOf (selectObs obs_results)) i = .ok b := by
      intro i hi
      rw [List.mem_range] at hi
      have hios : (i_observationsOf (selectObs obs_results))[i]? =
          some ((selectObs obs_results)[i].1) := by
        simp [i_observationsOf, List.getElem?_map, List.getElem?_eq_getElem hi]
      have hnms : (obs_namesOf (selectObs obs_results))[i]? =
          some (deriveName ((selectObs obs_results)[i].2.label)) := by
        simp [obs_namesOf, List.getElem?_map, List.getElem?_eq_getElem hi]
      have hlook := lookup_buildGroups tbl.ObservationID tbl.PupilWheel i
        tbl.ObservationID.dedup
      rw [if_pos (List.mem_dedup.mpr (hkeys i hi))] at hlook
      have hcat := List.getElem?_eq_getElem
        (show i < (if catalog_files.length = 1
          then listRepeat catalog_files (selectObs obs_results).length
          else catalog_files).length by omega)
      exact ⟨_, renderObsSingle_eval hios hnms hlook hcat⟩
    obtain ⟨blocks, hblocks⟩ := exMapM_ok_of_forall hrender
    refine ⟨introLines ++ blocks.flatten, ?_⟩
    unfold write_yaml
    rw [write_yaml_niriss_eq obs_results tbl catalog_files ps_cat_sw ps_cat_lw
      tbl.ObservationID.dedup hinst]
    rw [if_neg (by omega), hblocks, bind_ok]

theorem C2_witness :
    ∃ lines, write_yaml [⟨"NIRISS", "A"⟩]
      { Instrument := ["NIRISS"], ShortFilter := [], LongFilter := [],
        PupilWheel := ["F1"], TileNumber := [1], ObservationID := [0] }
      ["c"] none none = .ok lines :=
  C2_validation_amended _ _ _ _ _
    (Or.inr ⟨by decide, by decide, by decide⟩)

theorem listRepeat_singleton {α : Type} (a : α) (n : Nat) :
    listRepeat [a] n = List.replicate n a := by
  induction n with
  | zero => rfl
  | succ m ih =>
    simp only [listRepeat, List.replicate_succ, List.flatten_cons] at ih ⊢
    rw [ih]
    rfl

theorem maskSelect_ne_nil_of_mem {ids : List Nat} {vals : List String} {k : Nat}
    (hk : k ∈ ids) (hlen : vals.length = ids.length) :
    maskSelect ids vals k ≠ [] := by
  obtain ⟨j, hj, he⟩ := List.mem_iff_getElem.mp hk
  intro hcontra
  unfold maskSelect at hcontra
  rw [List.map_eq_nil_iff, List.filter_eq_nil_iff] at hcontra
  have hjz : j < (ids.zip vals).length := by
    rw [List.length_zip]
    omega
  have hg := List.getElem_mem hjz
  rw [List.getElem_zip] at hg
  have h2 := hcontra _ hg
  rw [he] at h2
  exact h2 (by simp)

set_option maxHeartbeats 1600000 in
/-- C8: single-channel family with exactly one supplied catalog path: the
path is broadcast (`catalog_files * len(observations)`) to one copy per
selected observation (first conjunct), and in any completed conversion every
rendered block fetches that same path — each block consists of the header
followed by one filter block per filter, each quoting the single path `c`,
and each block contains at least one filter block. -/
theorem C8_single_catalog_broadcast (obs_results : List ObsNode)
    (tbl : XmlTable) (c : String) (ps_cat_sw ps_cat_lw : Option (List String))
    (lines : List String)
    (hinst : tbl.Instrument.dedup = ["NIRISS"])
    (hlen : tbl.PupilWheel.length = tbl.ObservationID.length)
    (h : write_yaml obs_results tbl [c] ps_cat_sw ps_cat_lw = .ok lines) :
    (if ([c] : List String).length = 1
      then listRepeat [c] (selectObs obs_results).length
      else [c]) = List.replicate (selectObs obs_results).length c ∧
    ∃ blocks : List (List String),
      lines = introLines ++ blocks.flatten ∧
      blocks.length = (selectObs obs_results).length ∧
      ∀ i, i < (selectObs obs_results).length →
        ∃ io nm filts, filts ≠ [] ∧
          blocks[i]? = some (obsHeader (io + 1) nm ++
            (filts.map (fun t => singleFilterBlock t c)).flatten) := by
  have hbro : (if ([c] : List String).length = 1
      then listRepeat [c] (selectObs obs_results).length
      else [c]) = List.replicate (selectObs obs_results).length c := by
    rw [if_pos (show ([c] : List String).length = 1 from rfl), listRepeat_singleton]
  refine ⟨hbro, ?_⟩
  unfold write_yaml at h
  rw [write_yaml_niriss_eq obs_results tbl [c] ps_cat_sw ps_cat_lw
    tbl.ObservationID.dedup hinst, hbro] at h
  by_cases hval : 1 < (singleParamLengths
      (List.replicate (selectObs obs_results).length c)
      (buildGroups tbl.ObservationID.dedup tbl.ObservationID tbl.PupilWheel)
      (selectObs obs_results)).dedup.length
  · rw [if_pos hval] at h
    exact absurd h (by simp)
  · rw [if_neg hval] at h
    obtain ⟨blocks, hbl, hok⟩ := bind_ok_inv h
    rw [Except.ok.injEq] at hok
    obtain ⟨hlenb, hpt⟩ := exMapM_ok_inv hbl
    refine ⟨blocks, hok.symm, by simpa using hlenb, ?_⟩
    intro i hi
    obtain ⟨a, b, ha, hb, hf⟩ := hpt i (by simpa using hi)
    have hra : (List.range (selectObs obs_results).length)[i]? = some i := by
      simp [hi]
    rw [hra] at ha
    rw [Option.some.injEq] at ha
    subst ha
    obtain ⟨io, nm, filts, bs, hio, hnm, hflook, hbshape, hcase⟩ :=
      renderObsSingle_ok_inv hf
    rw [lookup_buildGroups] at hflook
    have hfm : i ∈ tbl.ObservationID ∧
        filts = maskSelect tbl.ObservationID tbl.PupilWheel i := by
      by_cases hm : i ∈ tbl.ObservationID.dedup
      · rw [if_pos hm, Option.some.injEq] at hflook
        exact ⟨List.mem_dedup.mp hm, hflook.symm⟩
      · rw [if_neg hm] at hflook
        exact absurd hflook (by simp)
    have hne : filts ≠ [] := by
      rw [hfm.2]
      exact maskSelect_ne_nil_of_mem hfm.1 hlen
    rcases hcase with ⟨hfil, _⟩ | ⟨c', hc', hbs⟩
    · exact absurd hfil hne
    · have hcc : c' = c := by
        have : (List.replicate (selectObs obs_results).length c)[i]? = some c := by
          simp [List.getElem?_eq_getElem, hi]
        rw [this, Option.some.injEq] at hc'
        exact hc'.symm
      subst hcc
      exact ⟨io, nm, filts, hne, by rw [hb, hbshape, hbs]⟩

theorem C8_witness :
    (if (["cat"] : List String).length = 1
      then listRepeat ["cat"]
        (selectObs [⟨"NIRISS", "A"⟩, ⟨"NIRISS", "B"⟩, ⟨"NIRISS", "C"⟩]).length
      else ["cat"]) = List.replicate
        (selectObs [⟨"NIRISS", "A"⟩, ⟨"NIRISS", "B"⟩, ⟨"NIRISS", "C"⟩]).length "cat" ∧
    ∃ blocks : List (List String),
      introLines ++
        ([obsHeader 1 "A" ++ (["F1"].map (fun t => singleFilterBlock t "cat")).flatten,
          obsHeader 2 "B" ++ (["F2"].map (fun t => singleFilterBlock t "cat")).flatten,
          obsHeader 3 "C" ++ (["F3"].map (fun t => singleFilterBlock t "cat")).flatten]).flatten
        = introLines ++ blocks.flatten ∧
      blocks.length =
        (selectObs [⟨"NIRISS", "A"⟩, ⟨"NIRISS", "B"⟩, ⟨"NIRISS", "C"⟩]).length ∧
      ∀ i, i < (selectObs [⟨"NIRISS", "A"⟩, ⟨"NIRISS", "B"⟩, ⟨"NIRISS", "C"⟩]).length →
        ∃ io nm filts, filts ≠ [] ∧
          blocks[i]? = some (obsHeader (io + 1) nm ++
            (filts.map (fun t => singleFilterBlock t "cat")).flatten) :=
  C8_single_catalog_broadcast
    [⟨"NIRISS", "A"⟩, ⟨"NIRISS", "B"⟩, ⟨"NIRISS", "C"⟩]
    { Instrument := ["NIRISS", "NIRISS", "NIRISS"], ShortFilter := [],
      LongFilter := [], PupilWheel := ["F1", "F2", "F3"],
      TileNumber := [1, 1, 1], ObservationID := [0, 1, 2] }
    "cat" none none _ (by rfl) (by rfl) (by rfl)

set_option maxHeartbeats 1600000 in
/-- C5: every conversion that completes renders exactly one block per
selected observation; the i-th block opens with the header for
`observation_number = i_observations[i] + 1`; the emitted numbers are
strictly increasing; and each recorded position is the observation's true
0-based position in the original unfiltered proposal list, so numbers skip
values where unsupported-instrument observations were excluded. -/
theorem C5_block_count_and_numbering (obs_results : List ObsNode)
    (tbl : XmlTable) (catalog_files : List String)
    (ps_cat_sw ps_cat_lw : Option (List String)) (lines : List String)
    (h : write_yaml obs_results tbl catalog_files ps_cat_sw ps_cat_lw = .ok lines) :
    ∃ blocks : List (List String),
      lines = introLines ++ blocks.flatten ∧
      blocks.length = (selectObs obs_results).length ∧
      (∀ i, i < (selectObs obs_results).length →
        ∃ io nm rest,
          (i_observationsOf (selectObs obs_results))[i]? = some io ∧
          (obs_namesOf (selectObs obs_results))[i]? = some nm ∧
          blocks[i]? = some (obsHeader (io + 1) nm ++ rest)) ∧
      ((i_observationsOf (selectObs obs_results)).map (· + 1)).Pairwise (· < ·) ∧
      (∀ p ∈ selectObs obs_results, obs_results[p.1]? = some p.2) := by
  have hpw : ((i_observationsOf (selectObs obs_results)).map (· + 1)).Pairwise
      (· < ·) :=
    List.pairwise_map.mpr ((pairwise_lt_i_observations obs_results).imp
      (by intro a b hab; omega))
  have hmemsel : ∀ p ∈ selectObs obs_results, obs_results[p.1]? = some p.2 :=
    fun p hp => getElem?_of_mem_selectObs hp
  unfold write_yaml at h
  rcases hdd : tbl.Instrument.dedup with _ | ⟨u, tail⟩
  · rw [write_yaml_empty_eq obs_results tbl catalog_files ps_cat_sw ps_cat_lw
      _ hdd] at h
    exact absurd h (by simp)
  · cases tail with
    | cons v tail2 =>
      rw [write_yaml_multi_eq obs_results tbl catalog_files ps_cat_sw ps_cat_lw
        _ (by rw [hdd]; simp only [List.length_cons]; omega)] at h
      exact absurd h (by simp)
    | nil =>
      by_cases hu1 : u = "NIRCAM" ∨ u = "WFSC"
      · cases hswc : ps_cat_sw with
        | none =>
          rw [hswc, write_yaml_nircam_none_eq obs_results tbl catalog_files none
            ps_cat_lw _ u hdd hu1 (Or.inl rfl)] at h
          exact absurd h (by simp)
        | some psw =>
          cases hlwc : ps_cat_lw with
          | none =>
            rw [hswc, hlwc, write_yaml_nircam_none_eq obs_results tbl
              catalog_files (some psw) none _ u hdd hu1 (Or.inr rfl)] at h
            exact absurd h (by simp)
          | some plw =>
            rw [hswc, hlwc, write_yaml_nircam_eq obs_results tbl catalog_files
              psw plw _ u hdd hu1] at h
            by_cases hval : 1 < (dichroicParamLengths psw plw
                (buildGroups tbl.ObservationID.dedup tbl.ObservationID
                  tbl.ShortFilter)
                (buildGroups tbl.ObservationID.dedup tbl.ObservationID
                  tbl.LongFilter)
                (selectObs obs_results)).dedup.length
            · rw [if_pos hval] at h
              exact absurd h (by simp)
            · rw [if_neg hval] at h
              obtain ⟨blocks, hbl, hok⟩ := bind_ok_inv h
              rw [Except.ok.injEq] at hok
              obtain ⟨hlenb, hpt⟩ := exMapM_ok_inv hbl
              refine ⟨blocks, hok.symm, by simpa using hlenb, ?_, hpw, hmemsel⟩
              intro i hi
              obtain ⟨a, b, ha, hb, hf⟩ := hpt i (by simpa using hi)
              have hra : (List.range (selectObs obs_results).length)[i]? =
                  some i := by simp [hi]
              rw [hra, Option.some.injEq] at ha
              subst ha
              obtain ⟨io, nm, rest, hio, hnm, hbsh⟩ := renderObsNIRCAM_ok_inv hf
              exact ⟨io, nm, rest, hio, hnm, by rw [hb, hbsh]⟩
      · by_cases hu2 : u = "NIRISS"
        · subst hu2
          rw [write_yaml_niriss_eq obs_results tbl catalog_files ps_cat_sw
            ps_cat_lw _ hdd] at h
          by_cases hval : 1 < (singleParamLengths
              (if catalog_files.length = 1
                then listRepeat catalog_files (selectObs obs_results).length
                else catalog_files)
              (buildGroups tbl.ObservationID.dedup tbl.ObservationID
                tbl.PupilWheel)
              (selectObs obs_results)).dedup.length
          · rw [if_pos hval] at h
            exact absurd h (by simp)
          · rw [if_neg hval] at h
            obtain ⟨blocks, hbl, hok⟩ := bind_ok_inv h
            rw [Except.ok.injEq] at hok
            obtain ⟨hlenb, hpt⟩ := exMapM_ok_inv hbl
            refine ⟨blocks, hok.symm, by simpa using hlenb, ?_, hpw, hmemsel⟩
            intro i hi
            obtain ⟨a, b, ha, hb, hf⟩ := hpt i (by simpa using hi)
            have hra : (List.range (selectObs obs_results).length)[i]? =
                some i := by simp [hi]
            rw [hra, Option.some.injEq] at ha
            subst ha
            obtain ⟨io, nm, filts, bs, hio, hnm, hflook, hbshape, hcase⟩ :=
              renderObsSingle_ok_inv hf
            exact ⟨io, nm, bs.flatten, hio, hnm, by rw [hb, hbshape]⟩
        · rw [write_yaml_other_eq obs_results tbl catalog_files ps_cat_sw
            ps_cat_lw _ u hdd hu1 hu2] at h
          exact absurd h (by simp)

theorem C5_witness :
    ∃ blocks : List (List String),
      introLines ++
        ([obsHeader 1 "A" ++
            (["F090W"].map (fun t => singleFilterBlock t "cat.list")).flatten,
          obsHeader 3 "C" ++
            (["F115W"].map (fun t => singleFilterBlock t "cat.list")).flatten]).flatten
        = introLines ++ blocks.flatten ∧
      blocks.length =
        (selectObs [⟨"NIRISS", "A"⟩, ⟨"MIRI", "skip"⟩, ⟨"NIRISS", "C"⟩]).length ∧
      (∀ i, i <
          (selectObs [⟨"NIRISS", "A"⟩, ⟨"MIRI", "skip"⟩, ⟨"NIRISS", "C"⟩]).length →
        ∃ io nm rest,
          (i_observationsOf
            (selectObs [⟨"NIRISS", "A"⟩, ⟨"MIRI", "skip"⟩, ⟨"NIRISS", "C"⟩]))[i]? =
            some io ∧
          (obs_namesOf
            (selectObs [⟨"NIRISS", "A"⟩, ⟨"MIRI", "skip"⟩, ⟨"NIRISS", "C"⟩]))[i]? =
            some nm ∧
          blocks[i]? = some (obsHeader (io + 1) nm ++ rest)) ∧
      ((i_observationsOf
        (selectObs [⟨"NIRISS", "A"⟩, ⟨"MIRI", "skip"⟩, ⟨"NIRISS", "C"⟩])).map
          (· + 1)).Pairwise (· < ·) ∧
      (∀ p ∈ selectObs [⟨"NIRISS", "A"⟩, ⟨"MIRI", "skip"⟩, ⟨"NIRISS", "C"⟩],
        ([⟨"NIRISS", "A"⟩, ⟨"MIRI", "skip"⟩, ⟨"NIRISS", "C"⟩] :
          List ObsNode)[p.1]? = some p.2) :=
  C5_block_count_and_numbering
    [⟨"NIRISS", "A"⟩, ⟨"MIRI", "skip"⟩, ⟨"NIRISS", "C"⟩]
    { Instrument := ["NIRISS", "NIRISS"], ShortFilter := [], LongFilter := [],
      PupilWheel := ["F090W", "F115W"], TileNumber := [1, 1],
      ObservationID := [0, 1] }
    ["cat.list"] none none _ (by rfl)

end Mirage

